import Mathlib

/-!
Verification development for the indoor-metadata extraction pipeline
(`src/locationDetector/src/metadata_extractor.py`, `models.py`, `config.py`).

The pipeline takes a raw, loosely-typed map returned by the vision client,
validates it against a strict schema (pydantic models in `models.py`),
repairs common problems (`_attempt_fix_validation_errors`), filters low
confidence detections (`_apply_confidence_filtering`), synthesizes a
fallback result on unrecoverable validation failure
(`_create_fallback_metadata`), retries transport failures with linear
backoff (`process_frame`), and fans a batch out (`process_frame_batch`).

Floats are modelled as rationals (all constants involved are exact
decimals), Python dicts with the schema's keys as records of `Option`
fields, and list entries that may fail `isinstance(x, dict)` with the
`RawEntry` wrapper.  Exceptions are modelled with explicit result types.
-/

/-! ### Schema enumerations (`models.py`) -/

/-- `scene_type` literal of `IndoorMetadata` (`models.py` lines 69-78). -/
inductive SceneType where
  | hallway | room | lobby | stairwell | elevator_area
  | corridor_intersection | entrance | unknown
deriving DecidableEq, Repr

/-- `type` literal of `Landmark` (`models.py` lines 29-45). -/
inductive LandmarkType where
  | door | staircase | stairs_up | stairs_down | elevator | exit_sign
  | fire_extinguisher | room_number_plaque | elevator_button_panel
  | emergency_exit_door | restroom_sign | water_fountain | floor_directory
  | hallway_intersection | corridor_junction
deriving DecidableEq, Repr

/-- `direction` literal of `Landmark` (`models.py` line 47). -/
inductive Direction where
  | left | right | ahead | behind
deriving DecidableEq, Repr

/-- `distance` literal of `Landmark` (`models.py` line 51). -/
inductive Distance where
  | very_close | near | mid | far
deriving DecidableEq, Repr

/-- `lighting_quality` literal of `IndoorMetadata` (`models.py` line 100). -/
inductive LightingQuality where
  | good | dim | poor | backlit
deriving DecidableEq, Repr

/-! ### Validated models (`models.py`) -/

/-- `TextDetection` (`models.py` lines 10-24); `text` is stored stripped by
the `text_not_empty` validator. -/
structure TextDetection where
  text : String
  confidence : ℚ
  includes_arrow : Bool
deriving DecidableEq, Repr

/-- `Landmark` (`models.py` lines 27-60). -/
structure Landmark where
  type : LandmarkType
  direction : Direction
  distance : Distance
  confidence : ℚ
  additional_info : Option String
deriving DecidableEq, Repr

/-- `IndoorMetadata` (`models.py` lines 63-116). -/
structure IndoorMetadata where
  scene_type : SceneType
  scene_confidence : ℚ
  text_detected : List TextDetection
  landmarks : List Landmark
  relative_position_cues : List String
  lighting_quality : LightingQuality
  motion_blur_detected : Bool
  frame_quality_score : ℚ
  processing_notes : Option String
deriving DecidableEq, Repr

/-! ### Raw (untyped dict) model

The vision client returns a JSON-like dict.  We model each schema key as an
`Option` (key present / absent); list entries may also be non-dicts, which
the repair code tests with `isinstance(item, dict)`. -/

/-- An element of a raw JSON list: a dict-shaped item, or something else
(the repair code drops non-dicts via `isinstance` checks). -/
inductive RawEntry (α : Type) where
  | dict (item : α)
  | nonDict
deriving DecidableEq, Repr

/-- Raw text-detection dict: keys of `TextDetection`, possibly missing. -/
structure RawTextItem where
  text : Option String
  confidence : Option ℚ
  includes_arrow : Option Bool
deriving DecidableEq, Repr

/-- Raw landmark dict: keys of `Landmark`, possibly missing.  Enum-valued
keys carry raw strings which may fail to parse. -/
structure RawLandmarkItem where
  type : Option String
  direction : Option String
  distance : Option String
  confidence : Option ℚ
  additional_info : Option String
deriving DecidableEq, Repr

/-- The raw result dict of the vision client, keys of `IndoorMetadata`. -/
structure RawMetadata where
  scene_type : Option String
  scene_confidence : Option ℚ
  text_detected : Option (List (RawEntry RawTextItem))
  landmarks : Option (List (RawEntry RawLandmarkItem))
  relative_position_cues : Option (List String)
  lighting_quality : Option String
  motion_blur_detected : Option Bool
  frame_quality_score : Option ℚ
  processing_notes : Option String
deriving DecidableEq, Repr

/-! ### Python string stripping

`str.strip()` removes leading and trailing whitespace.  The validator
`text_not_empty` rejects a text that is empty or whitespace-only
(`if not v or not v.strip()`), which is equivalent to all characters being
whitespace, and stores `v.strip()`. -/

/-- Whitespace test used by `str.strip()`. -/
def isSpace (c : Char) : Bool := c.isWhitespace

/-- Strip leading and trailing whitespace from a character list. -/
def stripList (l : List Char) : List Char :=
  ((l.dropWhile isSpace).reverse.dropWhile isSpace).reverse

/-- Python `s.strip()`. -/
def pyStrip (s : String) : String := ⟨stripList s.data⟩

/-- Python `not s or not s.strip()`: `s` is empty or whitespace-only. -/
def isBlank (s : String) : Bool := s.data.all isSpace

/-! ### Pydantic validation (`IndoorMetadata(**raw)`)

`parse_indoor_metadata` returns `some` exactly when pydantic construction
succeeds (no `ValidationError`), producing the validated value with
defaults filled in. -/

/-- Parse the `scene_type` literal. -/
def parseSceneType : String → Option SceneType
  | "hallway" => some .hallway
  | "room" => some .room
  | "lobby" => some .lobby
  | "stairwell" => some .stairwell
  | "elevator_area" => some .elevator_area
  | "corridor_intersection" => some .corridor_intersection
  | "entrance" => some .entrance
  | "unknown" => some .unknown
  | _ => none

/-- Parse the landmark `type` literal. -/
def parseLandmarkType : String → Option LandmarkType
  | "door" => some .door
  | "staircase" => some .staircase
  | "stairs_up" => some .stairs_up
  | "stairs_down" => some .stairs_down
  | "elevator" => some .elevator
  | "exit_sign" => some .exit_sign
  | "fire_extinguisher" => some .fire_extinguisher
  | "room_number_plaque" => some .room_number_plaque
  | "elevator_button_panel" => some .elevator_button_panel
  | "emergency_exit_door" => some .emergency_exit_door
  | "restroom_sign" => some .restroom_sign
  | "water_fountain" => some .water_fountain
  | "floor_directory" => some .floor_directory
  | "hallway_intersection" => some .hallway_intersection
  | "corridor_junction" => some .corridor_junction
  | _ => none

/-- Parse the `direction` literal. -/
def parseDirection : String → Option Direction
  | "left" => some .left
  | "right" => some .right
  | "ahead" => some .ahead
  | "behind" => some .behind
  | _ => none

/-- Parse the `distance` literal. -/
def parseDistance : String → Option Distance
  | "very_close" => some .very_close
  | "near" => some .near
  | "mid" => some .mid
  | "far" => some .far
  | _ => none

/-- Parse the `lighting_quality` literal. -/
def parseLighting : String → Option LightingQuality
  | "good" => some .good
  | "dim" => some .dim
  | "poor" => some .poor
  | "backlit" => some .backlit
  | _ => none

/-- Pydantic bound check `ge=0.0, le=1.0` on a confidence field. -/
def inUnit (c : ℚ) : Bool := decide (0 ≤ c) && decide (c ≤ 1)

/-- Validate one `text_detected` entry as a `TextDetection`: must be a dict
with a required `text` (non-blank, stored stripped by `text_not_empty`),
a required in-range `confidence`, and `includes_arrow` defaulting to
`False`. -/
def parse_text_item : RawEntry RawTextItem → Option TextDetection
  | .nonDict => none
  | .dict it =>
    match it.text, it.confidence with
    | some s, some c =>
      if isBlank s then none
      else if inUnit c then
        some { text := pyStrip s, confidence := c,
               includes_arrow := it.includes_arrow.getD false }
      else none
    | _, _ => none

/-- Validate one `landmarks` entry as a `Landmark`: must be a dict with
valid `type`, `direction`, `distance` literals, a required in-range
`confidence`, and optional `additional_info`. -/
def parse_landmark_item : RawEntry RawLandmarkItem → Option Landmark
  | .nonDict => none
  | .dict it =>
    match it.type, it.direction, it.distance, it.confidence with
    | some ts, some ds, some dis, some c =>
      match parseLandmarkType ts, parseDirection ds, parseDistance dis with
      | some t, some d, some dist =>
        if inUnit c then
          some { type := t, direction := d, distance := dist, confidence := c,
                 additional_info := it.additional_info }
        else none
      | _, _, _ => none
    | _, _, _, _ => none

/-- Validate every entry of a raw list; fails if any entry fails. -/
def parse_list {α β : Type} (f : α → Option β) : List α → Option (List β)
  | [] => some []
  | a :: t => do
    let b ← f a
    let bs ← parse_list f t
    some (b :: bs)

/-- The `lighting_quality` field: defaults to `good` when absent, must be
a valid literal when present. -/
def parse_lighting_field : Option String → Option LightingQuality
  | none => some LightingQuality.good
  | some s => parseLighting s

/-- Pydantic construction `IndoorMetadata(**raw)` (`models.py` lines
63-116): `some` on success, `none` when a `ValidationError` is raised.
Missing optional keys take their declared defaults. -/
def parse_indoor_metadata (raw : RawMetadata) : Option IndoorMetadata := do
  let sts ← raw.scene_type
  let st ← parseSceneType sts
  let sc ← raw.scene_confidence
  if inUnit sc then
    let fqs ← raw.frame_quality_score
    if inUnit fqs then
      let texts ← parse_list parse_text_item (raw.text_detected.getD [])
      let lms ← parse_list parse_landmark_item (raw.landmarks.getD [])
      let lq ← parse_lighting_field raw.lighting_quality
      some { scene_type := st, scene_confidence := sc, text_detected := texts,
             landmarks := lms,
             relative_position_cues := raw.relative_position_cues.getD [],
             lighting_quality := lq,
             motion_blur_detected := raw.motion_blur_detected.getD false,
             frame_quality_score := fqs,
             processing_notes := raw.processing_notes }
    else none
  else none

/-! ### Schema repair (`_attempt_fix_validation_errors`, lines 135-187)

The Python mutates a copy of the dict in order: default missing
`scene_type` (also overwriting `scene_confidence` with `0.3`), default
missing `scene_confidence` and `frame_quality_score`, clamp the two
frame-level scores if present, then rebuild the `text_detected` and
`landmarks` lists if those keys are present, keeping only dict entries
with the required keys and a defaulted, clamped `confidence`. -/

/-- Python `max(0.0, min(1.0, x))` (lines 160, 163, 172, 183). -/
def clamp01 (x : ℚ) : ℚ := max 0 (min 1 x)

/-- One `text_detected` entry in the repair loop (lines 168-173): kept iff
it is a dict containing a `text` key; missing `confidence` becomes `0.5`;
`confidence` is clamped. -/
def fix_text_entry : RawEntry RawTextItem → Option (RawEntry RawTextItem)
  | .dict it =>
    if it.text.isSome then
      some (.dict { it with confidence := some (clamp01 (it.confidence.getD (1/2))) })
    else none
  | .nonDict => none

/-- One `landmarks` entry in the repair loop (lines 179-184): kept iff it
is a dict containing all of `type`, `direction`, `distance`; missing
`confidence` becomes `0.5`; `confidence` is clamped. -/
def fix_landmark_entry : RawEntry RawLandmarkItem → Option (RawEntry RawLandmarkItem)
  | .dict it =>
    if it.type.isSome && it.direction.isSome && it.distance.isSome then
      some (.dict { it with confidence := some (clamp01 (it.confidence.getD (1/2))) })
    else none
  | .nonDict => none

/-- `_attempt_fix_validation_errors` (lines 135-187), step by step. -/
def attempt_fix_validation_errors (raw : RawMetadata) : RawMetadata :=
  -- lines 148-150: missing scene_type also overwrites scene_confidence
  let f1 := if raw.scene_type.isNone then
      { raw with scene_type := some "unknown", scene_confidence := some (3/10) }
    else raw
  -- lines 152-153
  let f2 := if f1.scene_confidence.isNone then
      { f1 with scene_confidence := some (1/2) } else f1
  -- lines 155-156
  let f3 := if f2.frame_quality_score.isNone then
      { f2 with frame_quality_score := some (1/2) } else f2
  -- lines 158-163: clamp if present
  let f4 := { f3 with scene_confidence := f3.scene_confidence.map clamp01,
                      frame_quality_score := f3.frame_quality_score.map clamp01 }
  -- lines 166-174: rebuilt only when the key is present
  let f5 := { f4 with text_detected :=
      f4.text_detected.map (List.filterMap fix_text_entry) }
  -- lines 177-185
  { f5 with landmarks := f5.landmarks.map (List.filterMap fix_landmark_entry) }

/-! ### Orchestrator (`MetadataExtractionService`) -/

/-- Read-only settings the orchestrator uses (`config.py` lines 25-30). -/
structure Config where
  max_retries : Nat
  retry_delay : ℚ
  confidence_threshold : ℚ
deriving DecidableEq, Repr

/-- The defaults from `config.py`: `max_retries=3`, `retry_delay=1.0`,
`confidence_threshold=0.5`. -/
def defaultConfig : Config :=
  { max_retries := 3, retry_delay := 1, confidence_threshold := 1/2 }

/-- Result of one `overshoot_client.extract_metadata` call: a raw dict, or
a raised transport-level exception with message `msg`. -/
inductive ExtractResult where
  | ok (raw : RawMetadata)
  | err (msg : String)
deriving Repr

/-- A Python exception escaping `process_frame`: either the re-raised
underlying exception of the last attempt (bare `raise`, line 103) or the
`ValueError` built at line 106. -/
inductive PyError where
  | transport (msg : String)
  | valueError (msg : String)
deriving DecidableEq, Repr

/-- Python `str(e)`. -/
def PyError.msg : PyError → String
  | .transport m => m
  | .valueError m => m

/-- Outcome of `process_frame`: a returned metadata value or a raised
exception. -/
inductive ProcessOutcome where
  | ok (m : IndoorMetadata)
  | raised (e : PyError)
deriving DecidableEq, Repr

/-- What one `process_frame` call did: its outcome, how many
`extract_metadata` calls it made, and the total backoff it slept. -/
structure ProcessResult where
  outcome : ProcessOutcome
  attemptsMade : Nat
  totalDelay : ℚ
deriving DecidableEq, Repr

/-- `_validate_and_parse` (lines 108-133): direct pydantic validation,
then one repair attempt and re-validation; `none` means the second
validation also raised (the `ValidationError` propagates). -/
def validate_and_parse (raw : RawMetadata) : Option IndoorMetadata :=
  match parse_indoor_metadata raw with
  | some m => some m
  | none => parse_indoor_metadata (attempt_fix_validation_errors raw)

/-- `_apply_confidence_filtering` (lines 189-230): keep detections with
`confidence >= threshold`; all other fields unchanged. -/
def apply_confidence_filtering (threshold : ℚ) (m : IndoorMetadata) :
    IndoorMetadata :=
  { m with
    text_detected := m.text_detected.filter (fun t => threshold ≤ t.confidence),
    landmarks := m.landmarks.filter (fun l => threshold ≤ l.confidence) }

/-- `_create_fallback_metadata` (lines 232-258). -/
def create_fallback_metadata (error_msg : String) : IndoorMetadata :=
  { scene_type := .unknown,
    scene_confidence := 1/10,
    text_detected := [],
    landmarks := [],
    relative_position_cues := [],
    lighting_quality := .poor,
    motion_blur_detected := true,
    frame_quality_score := 1/5,
    processing_notes := some ("Extraction failed: " ++ error_msg) }

/-- The `while attempt < max_retries` loop of `process_frame` (lines
53-106).  `extract n` is the result of the `(n+1)`-st
`extract_metadata` call; `pyErrStr raw` stands for pydantic's `str(e)` for
the `ValidationError` on `raw` (opaque library-produced text).  `attempt`
is the Python loop counter (number of failed calls so far), `delayAcc` the
backoff slept so far, and `fuel = max_retries - attempt` drives the
recursion.  The `fuel = 0` case is the loop exiting to line 106. -/
def process_frame_go (cfg : Config) (pyErrStr : RawMetadata → String)
    (retry_on_failure : Bool) (extract : Nat → ExtractResult) :
    Nat → Option String → ℚ → Nat → ProcessResult
  | attempt, lastErr, delayAcc, 0 =>
    -- line 106: raise ValueError(f"Failed to extract metadata after ...")
    { outcome := .raised (.valueError
        ("Failed to extract metadata after " ++ toString cfg.max_retries ++
         " attempts: " ++ (match lastErr with | none => "None" | some m => m))),
      attemptsMade := attempt, totalDelay := delayAcc }
  | attempt, _lastErr, delayAcc, fuel + 1 =>
    match extract attempt with
    | .ok raw =>
      match validate_and_parse raw with
      | some m =>
        -- lines 65-79: validated, filtered, returned
        { outcome := .ok (apply_confidence_filtering cfg.confidence_threshold m),
          attemptsMade := attempt + 1, totalDelay := delayAcc }
      | none =>
        -- lines 81-87: ValidationError caught, fallback returned
        { outcome := .ok (create_fallback_metadata
            ("Validation failed: " ++ pyErrStr raw)),
          attemptsMade := attempt + 1, totalDelay := delayAcc }
    | .err msg =>
      -- lines 89-103: transport failure
      let a2 := attempt + 1
      if a2 < cfg.max_retries ∧ retry_on_failure then
        -- line 100: await asyncio.sleep(retry_delay * attempt)
        process_frame_go cfg pyErrStr retry_on_failure extract
          a2 (some msg) (delayAcc + cfg.retry_delay * (a2 : ℚ)) fuel
      else
        -- line 103: bare `raise` re-raises the underlying exception
        { outcome := .raised (.transport msg),
          attemptsMade := a2, totalDelay := delayAcc }

/-- `process_frame` (lines 34-106). -/
def process_frame (cfg : Config) (pyErrStr : RawMetadata → String)
    (retry_on_failure : Bool) (extract : Nat → ExtractResult) : ProcessResult :=
  process_frame_go cfg pyErrStr retry_on_failure extract 0 none 0 cfg.max_retries

/-- One entry of the `asyncio.gather(..., return_exceptions=True)` result
(line 282): a value or a caught exception object. -/
inductive TaskResult where
  | val (m : IndoorMetadata)
  | exc (e : PyError)
deriving Repr

/-- `process_frame_batch` (lines 260-295): one `process_frame` per frame
(with `retry_on_failure=True`, its default), gathered in input order, then
exceptions converted to fallback results.  Each frame's vision-client
behaviour is its own trace `extracts[i]`; the semaphore admission cap
bounds concurrency only and does not affect the per-frame results, which
share no mutable state (see the `SemStep` model below). -/
def process_frame_batch (cfg : Config) (pyErrStr : RawMetadata → String)
    (extracts : List (Nat → ExtractResult)) : List IndoorMetadata :=
  let results := extracts.map (fun ex =>
    match (process_frame cfg pyErrStr true ex).outcome with
    | .ok m => TaskResult.val m
    | .raised e => TaskResult.exc e)
  results.map (fun r =>
    match r with
    | .val m => m
    | .exc e => create_fallback_metadata ("Batch processing error: " ++ e.msg))

/-- The per-frame conversion of `process_frame_batch` (lines 286-293),
expressed on one outcome: a returned value is kept, a raised exception
becomes that frame's fallback result. -/
def frame_outcome_to_result (r : ProcessOutcome) : IndoorMetadata :=
  match r with
  | .ok m => m
  | .raised e => create_fallback_metadata ("Batch processing error: " ++ e.msg)

/-! ### Concurrency model for `process_frame_batch`

`process_with_semaphore` (lines 277-279) wraps each per-frame task in
`async with semaphore` around an `asyncio.Semaphore(max_concurrent)`
(line 275).  We model the admission protocol as a transition system: each
task is waiting (before `__aenter__` returns), running (inside the `async
with` body, where its `extract` calls happen), or done (after
`__aexit__`).  Entering requires a positive semaphore value and decrements
it; leaving increments it.  `inFlight` counts the running tasks; every
in-flight `extract` call belongs to a running task. -/

/-- Phase of one batch task with respect to the semaphore. -/
inductive TaskPhase where
  | waiting | running | done
deriving DecidableEq, Repr

/-- Is the task inside the `async with semaphore` body? -/
def TaskPhase.isRunning : TaskPhase → Bool
  | .running => true
  | _ => false

/-- Semaphore counter plus the phase of each task of the batch. -/
structure SemState where
  sem : Nat
  tasks : List TaskPhase
deriving DecidableEq, Repr

/-- Number of tasks currently inside the semaphore-guarded body. -/
def inFlight (s : SemState) : Nat := s.tasks.countP TaskPhase.isRunning

/-- One scheduler step of the batch: a waiting task acquires the semaphore
(possible only while the counter is positive), or a running task finishes
and releases it. -/
inductive SemStep : SemState → SemState → Prop where
  | acquire (s : SemState) (i : Nat)
      (hw : s.tasks[i]? = some .waiting) (hs : 0 < s.sem) :
      SemStep s ⟨s.sem - 1, s.tasks.set i .running⟩
  | release (s : SemState) (i : Nat)
      (hr : s.tasks[i]? = some .running) :
      SemStep s ⟨s.sem + 1, s.tasks.set i .done⟩

/-- Start of `process_frame_batch` on `n` frames with cap `cap`:
`asyncio.Semaphore(max_concurrent)` fresh, all tasks waiting. -/
def initSem (cap n : Nat) : SemState := ⟨cap, List.replicate n .waiting⟩

/-- States the batch scheduler can reach. -/
def SemReachable (cap n : Nat) (s : SemState) : Prop :=
  Relation.ReflTransGen SemStep (initSem cap n) s

/-! ### Concrete inputs used in witnesses and counterexamples -/

/-- The raw hallway result of the spec's scenario. -/
def hallwayRaw : RawMetadata :=
  { scene_type := some "hallway", scene_confidence := some (94/100),
    text_detected := some [.dict { text := some "Floor 3",
                                   confidence := some (92/100),
                                   includes_arrow := none }],
    landmarks := some [],
    relative_position_cues := none, lighting_quality := none,
    motion_blur_detected := none, frame_quality_score := some (89/100),
    processing_notes := none }

/-- The validated hallway metadata: scenario values plus defaults. -/
def hallwayMeta : IndoorMetadata :=
  { scene_type := .hallway, scene_confidence := 94/100,
    text_detected := [{ text := "Floor 3", confidence := 92/100,
                        includes_arrow := false }],
    landmarks := [], relative_position_cues := [],
    lighting_quality := .good, motion_blur_detected := false,
    frame_quality_score := 89/100, processing_notes := none }

/-- A raw result invalid even after repair: `scene_type` is present but not
one of the schema literals, and repair never touches a present
`scene_type`. -/
def badSceneRaw : RawMetadata :=
  { scene_type := some "garbage", scene_confidence := some (1/2),
    text_detected := none, landmarks := none,
    relative_position_cues := none, lighting_quality := none,
    motion_blur_detected := none, frame_quality_score := some (1/2),
    processing_notes := none }

/-- A raw result whose only text detection has whitespace-only text. -/
def blankTextRaw : RawMetadata :=
  { scene_type := some "hallway", scene_confidence := some (1/2),
    text_detected := some [.dict { text := some "   ",
                                   confidence := some (9/10),
                                   includes_arrow := none }],
    landmarks := none, relative_position_cues := none,
    lighting_quality := none, motion_blur_detected := none,
    frame_quality_score := some (1/2), processing_notes := none }

/-- A raw result missing `scene_type` but carrying its own
`scene_confidence` of `0.7`. -/
def noSceneTypeRaw : RawMetadata :=
  { scene_type := none, scene_confidence := some (7/10),
    text_detected := none, landmarks := none,
    relative_position_cues := none, lighting_quality := none,
    motion_blur_detected := none, frame_quality_score := some (1/2),
    processing_notes := none }

/-- Landmark entries for the repair witness: one missing `distance`, one
complete but missing `confidence`. -/
def landmarkItemsC5 : List (RawEntry RawLandmarkItem) :=
  [.dict { type := some "door", direction := some "left", distance := none,
           confidence := some (9/10), additional_info := none },
   .dict { type := some "door", direction := some "left",
           distance := some "near", confidence := none,
           additional_info := none }]

/-- A raw result carrying `landmarkItemsC5`. -/
def landmarkRawC5 : RawMetadata :=
  { scene_type := some "hallway", scene_confidence := some (1/2),
    text_detected := none, landmarks := some landmarkItemsC5,
    relative_position_cues := none, lighting_quality := none,
    motion_blur_detected := none, frame_quality_score := some (1/2),
    processing_notes := none }

/-- The property C5 asserts of a repaired `landmarks` list `out` obtained
from raw entries `items`: every surviving entry is a dict that came from a
dict entry having all of `type`, `direction`, `distance`, with those three
fields carried over unchanged (never invented) and a missing `confidence`
defaulted to `0.5`; and every dict entry having all three fields survives,
with its confidence defaulted and clamped. -/
def landmark_repair_spec (items out : List (RawEntry RawLandmarkItem)) : Prop :=
  (∀ it, RawEntry.dict it ∈ out → ∃ it0, RawEntry.dict it0 ∈ items ∧
      it0.type.isSome = true ∧ it0.direction.isSome = true ∧
      it0.distance.isSome = true ∧
      it.type = it0.type ∧ it.direction = it0.direction ∧
      it.distance = it0.distance ∧
      (it0.confidence = none → it.confidence = some (1/2))) ∧
  (∀ it0, RawEntry.dict it0 ∈ items → it0.type.isSome = true →
      it0.direction.isSome = true → it0.distance.isSome = true →
      RawEntry.dict { it0 with
          confidence := some (clamp01 (it0.confidence.getD (1/2))) } ∈ out) ∧
  (∀ e ∈ out, e ≠ RawEntry.nonDict)

/-! ### Helper lemmas -/

theorem countP_set {α : Type} (p : α → Bool) :
    ∀ (l : List α) (i : Nat) (a b : α), l[i]? = some a →
      (l.set i b).countP p + (if p a then 1 else 0)
        = l.countP p + (if p b then 1 else 0) := by
  intro l
  induction l with
  | nil => intro i a b h; simp at h
  | cons x t ih =>
    intro i a b h
    cases i with
    | zero =>
      simp only [List.getElem?_cons_zero, Option.some.injEq] at h
      subst h
      simp [List.countP_cons]
      omega
    | succ j =>
      simp only [List.getElem?_cons_succ] at h
      have h2 := ih j a b h
      simp [List.countP_cons, List.set]
      omega

theorem countP_replicate_waiting (n : Nat) :
    (List.replicate n TaskPhase.waiting).countP TaskPhase.isRunning = 0 := by
  induction n with
  | zero => rfl
  | succ k ih => simp [List.replicate, List.countP_cons, ih, TaskPhase.isRunning]

/-- One scheduler step preserves `sem + inFlight = cap`. -/
theorem sem_step_invariant {cap : Nat} {s t : SemState} (hstep : SemStep s t)
    (ih : s.sem + inFlight s = cap) : t.sem + inFlight t = cap := by
  cases hstep with
  | acquire i hw hs =>
    have hc := countP_set TaskPhase.isRunning s.tasks i _ TaskPhase.running hw
    simp only [TaskPhase.isRunning] at hc
    simp only [inFlight] at ih ⊢
    simp at hc
    omega
  | release i hr =>
    have hc := countP_set TaskPhase.isRunning s.tasks i _ TaskPhase.done hr
    simp only [TaskPhase.isRunning] at hc
    simp only [inFlight] at ih ⊢
    simp at hc
    omega

/-- Invariant of the semaphore protocol: the counter plus the number of
running tasks is always the configured cap. -/
theorem sem_invariant {cap n : Nat} {s : SemState}
    (h : SemReachable cap n s) : s.sem + inFlight s = cap := by
  induction h with
  | refl => simp [initSem, inFlight, countP_replicate_waiting]
  | tail _hab hstep ih => exact sem_step_invariant hstep ih

/-! ### Lemmas about clamping and repair -/

theorem clamp01_nonneg (x : ℚ) : 0 ≤ clamp01 x := le_max_left 0 _

theorem clamp01_le_one (x : ℚ) : clamp01 x ≤ 1 :=
  max_le (by norm_num) (min_le_left 1 x)

theorem clamp01_eq_self {x : ℚ} (h0 : 0 ≤ x) (h1 : x ≤ 1) : clamp01 x = x := by
  unfold clamp01
  rw [min_eq_right h1, max_eq_right h0]

/-- Final `scene_type` after repair. -/
theorem fix_scene_type (raw : RawMetadata) :
    (attempt_fix_validation_errors raw).scene_type
      = if raw.scene_type.isNone then some "unknown" else raw.scene_type := by
  unfold attempt_fix_validation_errors
  cases h1 : raw.scene_type <;> cases h2 : raw.scene_confidence <;>
    cases h3 : raw.frame_quality_score <;> simp [h1, h2, h3]

/-- Final `scene_confidence` after repair: always present and clamped; a
missing `scene_type` overwrites it with `0.3` first. -/
theorem fix_scene_confidence (raw : RawMetadata) :
    (attempt_fix_validation_errors raw).scene_confidence
      = some (clamp01 (if raw.scene_type.isNone then 3/10
                       else raw.scene_confidence.getD (1/2))) := by
  unfold attempt_fix_validation_errors
  cases h1 : raw.scene_type <;> cases h2 : raw.scene_confidence <;>
    cases h3 : raw.frame_quality_score <;> simp [h1, h2, h3]

/-- Final `frame_quality_score` after repair: always present and clamped. -/
theorem fix_frame_quality_score (raw : RawMetadata) :
    (attempt_fix_validation_errors raw).frame_quality_score
      = some (clamp01 (raw.frame_quality_score.getD (1/2))) := by
  unfold attempt_fix_validation_errors
  cases h1 : raw.scene_type <;> cases h2 : raw.scene_confidence <;>
    cases h3 : raw.frame_quality_score <;> simp [h1, h2, h3]

/-- Final `text_detected` after repair. -/
theorem fix_text_detected (raw : RawMetadata) :
    (attempt_fix_validation_errors raw).text_detected
      = raw.text_detected.map (List.filterMap fix_text_entry) := by
  unfold attempt_fix_validation_errors
  cases h1 : raw.scene_type <;> cases h2 : raw.scene_confidence <;>
    cases h3 : raw.frame_quality_score <;> simp [h1, h2, h3]

/-- Final `landmarks` after repair. -/
theorem fix_landmarks (raw : RawMetadata) :
    (attempt_fix_validation_errors raw).landmarks
      = raw.landmarks.map (List.filterMap fix_landmark_entry) := by
  unfold attempt_fix_validation_errors
  cases h1 : raw.scene_type <;> cases h2 : raw.scene_confidence <;>
    cases h3 : raw.frame_quality_score <;> simp [h1, h2, h3]

/-! ### Lemmas about stripping and parsing -/

/-- Dropping a prefix of `p`-satisfying elements cannot make a list all-`p`
if it was not. -/
theorem all_dropWhile_false {α : Type} (p : α → Bool) (l : List α)
    (h : l.all p = false) : (l.dropWhile p).all p = false := by
  induction l with
  | nil => simp at h
  | cons a t ih =>
    by_cases hpa : p a
    · rw [List.all_cons, hpa, Bool.true_and] at h
      rw [List.dropWhile_cons_of_pos hpa]
      exact ih h
    · rw [List.dropWhile_cons_of_neg hpa, List.all_cons,
          Bool.eq_false_iff.mpr hpa, Bool.false_and]

/-- `str.strip()` of a string with a non-whitespace character keeps one. -/
theorem isBlank_pyStrip (s : String) (h : isBlank s = false) :
    isBlank (pyStrip s) = false := by
  have h2 : s.data.all isSpace = false := h
  show (((s.data.dropWhile isSpace).reverse.dropWhile isSpace).reverse).all
      isSpace = false
  rw [List.all_reverse]
  apply all_dropWhile_false
  rw [List.all_reverse]
  exact all_dropWhile_false isSpace s.data h2

/-- Membership in a fully-validated list comes from validating a member. -/
theorem parse_list_mem {α β : Type} (f : α → Option β) :
    ∀ (l : List α) (out : List β), parse_list f l = some out →
      ∀ b ∈ out, ∃ a ∈ l, f a = some b := by
  intro l
  induction l with
  | nil =>
    intro out h b hb
    simp [parse_list] at h
    subst h
    simp at hb
  | cons a t ih =>
    intro out h b hb
    simp only [parse_list, Option.bind_eq_bind, Option.bind_eq_some] at h
    obtain ⟨b0, hb0, out0, hout0, hcons⟩ := h
    injection hcons with hcons
    subst hcons
    rcases List.mem_cons.mp hb with hb1 | hb2
    · exact ⟨a, List.mem_cons_self a t, hb1 ▸ hb0⟩
    · obtain ⟨a2, ha2, hfa2⟩ := ih out0 hout0 b hb2
      exact ⟨a2, List.mem_cons_of_mem a ha2, hfa2⟩

/-- A successfully validated text detection has non-blank stripped text. -/
theorem parse_text_item_not_blank (e : RawEntry RawTextItem)
    (td : TextDetection) (h : parse_text_item e = some td) :
    isBlank td.text = false := by
  cases e with
  | nonDict => simp [parse_text_item] at h
  | dict it =>
    obtain ⟨ot, oc, oa⟩ := it
    cases ot with
    | none => simp [parse_text_item] at h
    | some s =>
      cases oc with
      | none => simp [parse_text_item] at h
      | some c =>
        simp only [parse_text_item] at h
        by_cases hb : isBlank s
        · rw [if_pos hb] at h; simp at h
        · rw [if_neg hb] at h
          by_cases hu : inUnit c = true
          · rw [if_pos hu] at h
            simp only [Option.some.injEq] at h
            subst h
            exact isBlank_pyStrip s (Bool.eq_false_iff.mpr hb)
          · rw [if_neg hu] at h; simp at h

/-- Every text detection in a pydantic-validated result is non-blank. -/
theorem parse_metadata_text_not_blank (raw : RawMetadata) (m : IndoorMetadata)
    (h : parse_indoor_metadata raw = some m) :
    ∀ td ∈ m.text_detected, isBlank td.text = false := by
  intro td htd
  unfold parse_indoor_metadata at h
  simp only [Option.bind_eq_bind, Option.bind_eq_some] at h
  obtain ⟨sts, hsts, st, hst, sc, hsc, h⟩ := h
  split at h
  · simp only [Option.bind_eq_bind, Option.bind_eq_some] at h
    obtain ⟨fqs, hfqs, h⟩ := h
    split at h
    · simp only [Option.bind_eq_bind, Option.bind_eq_some] at h
      obtain ⟨texts, htexts, lms, hlms, lq, hlq, h⟩ := h
      simp only [Option.some.injEq] at h
      subst h
      obtain ⟨e, _he, hfe⟩ := parse_list_mem parse_text_item _ texts htexts td htd
      exact parse_text_item_not_blank e td hfe
    · simp at h
  · simp at h

/-- Every metadata value the retry loop returns (rather than raises) is
either the confidence-filtered result of a successful validation/repair or
a synthesized fallback. -/
theorem process_frame_go_ok_cases (cfg : Config)
    (pyErrStr : RawMetadata → String) (rof : Bool)
    (extract : Nat → ExtractResult) :
    ∀ (fuel attempt : Nat) (lastErr : Option String) (delayAcc : ℚ)
      (m : IndoorMetadata),
      (process_frame_go cfg pyErrStr rof extract attempt lastErr delayAcc
          fuel).outcome = .ok m →
      (∃ raw m0, validate_and_parse raw = some m0 ∧
          m = apply_confidence_filtering cfg.confidence_threshold m0) ∨
      (∃ s, m = create_fallback_metadata s) := by
  intro fuel
  induction fuel with
  | zero =>
    intro attempt lastErr delayAcc m h
    simp [process_frame_go] at h
  | succ n ih =>
    intro attempt lastErr delayAcc m h
    simp only [process_frame_go] at h
    cases hex : extract attempt with
    | ok raw =>
      rw [hex] at h
      dsimp only [] at h
      cases hval : validate_and_parse raw with
      | some m0 =>
        rw [hval] at h
        simp at h
        exact Or.inl ⟨raw, m0, hval, h.symm⟩
      | none =>
        rw [hval] at h
        simp at h
        exact Or.inr ⟨_, h.symm⟩
    | err msg =>
      rw [hex] at h
      dsimp only [] at h
      split at h
      · exact ih _ _ _ _ h
      · simp at h

/-- `process_frame` specialization of `process_frame_go_ok_cases`. -/
theorem process_frame_ok_cases (cfg : Config)
    (pyErrStr : RawMetadata → String) (rof : Bool)
    (extract : Nat → ExtractResult) (m : IndoorMetadata)
    (h : (process_frame cfg pyErrStr rof extract).outcome = .ok m) :
    (∃ raw m0, validate_and_parse raw = some m0 ∧
        m = apply_confidence_filtering cfg.confidence_threshold m0) ∨
    (∃ s, m = create_fallback_metadata s) :=
  process_frame_go_ok_cases cfg pyErrStr rof extract cfg.max_retries 0 none 0 m h

/-- If the first `extract` call returns a raw result, `process_frame`
finishes on that attempt, by validation or by fallback. -/
theorem process_frame_first_extract_ok (cfg : Config)
    (pyErrStr : RawMetadata → String) (rof : Bool)
    (extract : Nat → ExtractResult) (raw : RawMetadata)
    (hmax : 0 < cfg.max_retries) (hex : extract 0 = .ok raw) :
    process_frame cfg pyErrStr rof extract
      = match validate_and_parse raw with
        | some m =>
          { outcome := .ok (apply_confidence_filtering cfg.confidence_threshold m),
            attemptsMade := 1, totalDelay := 0 }
        | none =>
          { outcome := .ok (create_fallback_metadata
              ("Validation failed: " ++ pyErrStr raw)),
            attemptsMade := 1, totalDelay := 0 } := by
  obtain ⟨k, hk⟩ : ∃ k, cfg.max_retries = k + 1 :=
    ⟨cfg.max_retries - 1, by omega⟩
  unfold process_frame
  rw [hk]
  simp only [process_frame_go]
  rw [hex]

/-! ### Claims -/

/-- C4: confidence filtering removes exactly the text detections and
landmarks with confidence strictly below the threshold (an entry with
confidence equal to the threshold is kept), leaves every other field
unchanged, and is idempotent. -/
theorem claim_confidence_filtering (t : ℚ) (M : IndoorMetadata) :
    (apply_confidence_filtering t M).text_detected
        = M.text_detected.filter (fun td => !decide (td.confidence < t)) ∧
    (apply_confidence_filtering t M).landmarks
        = M.landmarks.filter (fun l => !decide (l.confidence < t)) ∧
    apply_confidence_filtering t (apply_confidence_filtering t M)
        = apply_confidence_filtering t M := by
  refine ⟨?_, ?_, ?_⟩
  · exact List.filter_congr (fun x _ => by
      rw [← decide_not, decide_eq_decide]
      exact not_lt.symm)
  · exact List.filter_congr (fun x _ => by
      rw [← decide_not, decide_eq_decide]
      exact not_lt.symm)
  · simp [apply_confidence_filtering, List.filter_filter]

/-- C7: repair clamps every present confidence value — frame-level
`scene_confidence` and `frame_quality_score`, and the per-item
`confidence` of every surviving text and landmark entry — into [0, 1], so
nothing is rejected for an out-of-range confidence. -/
theorem claim_repair_clamps_confidences (raw : RawMetadata) :
    (∃ c, (attempt_fix_validation_errors raw).scene_confidence = some c ∧
        0 ≤ c ∧ c ≤ 1) ∧
    (∃ q, (attempt_fix_validation_errors raw).frame_quality_score = some q ∧
        0 ≤ q ∧ q ≤ 1) ∧
    (∀ e ∈ ((attempt_fix_validation_errors raw).text_detected.getD []),
        ∃ it, e = RawEntry.dict it ∧
          ∃ c, it.confidence = some c ∧ 0 ≤ c ∧ c ≤ 1) ∧
    (∀ e ∈ ((attempt_fix_validation_errors raw).landmarks.getD []),
        ∃ it, e = RawEntry.dict it ∧
          ∃ c, it.confidence = some c ∧ 0 ≤ c ∧ c ≤ 1) := by
  refine ⟨?_, ?_, ?_, ?_⟩
  · exact ⟨_, fix_scene_confidence raw, clamp01_nonneg _, clamp01_le_one _⟩
  · exact ⟨_, fix_frame_quality_score raw, clamp01_nonneg _, clamp01_le_one _⟩
  · intro e he
    rw [fix_text_detected raw] at he
    cases hl : raw.text_detected with
    | none => rw [hl] at he; simp at he
    | some items =>
      rw [hl] at he
      simp only [Option.map_some', Option.getD_some] at he
      obtain ⟨a, _ha, hfa⟩ := List.mem_filterMap.mp he
      cases a with
      | nonDict => simp [fix_text_entry] at hfa
      | dict it0 =>
        simp only [fix_text_entry] at hfa
        by_cases hts : it0.text.isSome
        · rw [if_pos hts] at hfa
          injection hfa with hfa
          exact ⟨_, hfa.symm, _, rfl, clamp01_nonneg _, clamp01_le_one _⟩
        · rw [if_neg hts] at hfa
          exact absurd hfa (by simp)
  · intro e he
    rw [fix_landmarks raw] at he
    cases hl : raw.landmarks with
    | none => rw [hl] at he; simp at he
    | some items =>
      rw [hl] at he
      simp only [Option.map_some', Option.getD_some] at he
      obtain ⟨a, _ha, hfa⟩ := List.mem_filterMap.mp he
      cases a with
      | nonDict => simp [fix_landmark_entry] at hfa
      | dict it0 =>
        simp only [fix_landmark_entry] at hfa
        by_cases hks : (it0.type.isSome && it0.direction.isSome
            && it0.distance.isSome) = true
        · rw [if_pos hks] at hfa
          injection hfa with hfa
          exact ⟨_, hfa.symm, _, rfl, clamp01_nonneg _, clamp01_le_one _⟩
        · rw [if_neg hks] at hfa
          exact absurd hfa (by simp)

/-- C10: whenever the raw map lacks `scene_type`, repair overwrites
`scene_confidence` with `0.3` (and sets `scene_type` to `"unknown"`),
discarding any confidence the raw map carried. -/
theorem claim_missing_scene_type_forces_confidence (raw : RawMetadata)
    (h : raw.scene_type = none) :
    (attempt_fix_validation_errors raw).scene_confidence = some (3/10) ∧
    (attempt_fix_validation_errors raw).scene_type = some "unknown" := by
  constructor
  · rw [fix_scene_confidence raw, h]
    simp only [Option.isNone_none, if_true]
    rw [clamp01_eq_self (by norm_num) (by norm_num)]
  · rw [fix_scene_type raw, h]
    simp

/-- C10 witness: a raw map with its own `scene_confidence = 0.7` but no
`scene_type` ends up with `scene_confidence = 0.3` after repair. -/
theorem claim_missing_scene_type_forces_confidence_witness :
    noSceneTypeRaw.scene_type = none ∧
    noSceneTypeRaw.scene_confidence = some (7/10) ∧
    (attempt_fix_validation_errors noSceneTypeRaw).scene_confidence
      = some (3/10) :=
  ⟨rfl, rfl, (claim_missing_scene_type_forces_confidence noSceneTypeRaw rfl).1⟩

/-- C5: for every raw map with a `landmarks` key, repair drops exactly the
entries missing one of `type`, `direction`, `distance` (never defaulting
them), and keeps complete entries, defaulting a missing `confidence` to
`0.5` before clamping. -/
theorem claim_landmark_repair (raw : RawMetadata)
    (items : List (RawEntry RawLandmarkItem))
    (h : raw.landmarks = some items) :
    ∃ out, (attempt_fix_validation_errors raw).landmarks = some out ∧
      landmark_repair_spec items out := by
  refine ⟨items.filterMap fix_landmark_entry, ?_, ?_, ?_, ?_⟩
  · rw [fix_landmarks raw, h]
    rfl
  · intro it hmem
    obtain ⟨a, ha, hfa⟩ := List.mem_filterMap.mp hmem
    cases a with
    | nonDict => simp [fix_landmark_entry] at hfa
    | dict it0 =>
      simp only [fix_landmark_entry] at hfa
      by_cases hks : (it0.type.isSome && it0.direction.isSome
          && it0.distance.isSome) = true
      · rw [if_pos hks] at hfa
        injection hfa with hfa
        injection hfa with hfa
        obtain ⟨h12, h3⟩ := Bool.and_eq_true_iff.mp hks
        obtain ⟨h1, h2⟩ := Bool.and_eq_true_iff.mp h12
        refine ⟨it0, ha, h1, h2, h3, ?_, ?_, ?_, ?_⟩
        · rw [← hfa]
        · rw [← hfa]
        · rw [← hfa]
        · intro hc
          rw [← hfa]
          show some (clamp01 (it0.confidence.getD (1/2))) = some (1/2)
          rw [hc]
          show some (clamp01 (1/2)) = some (1/2)
          rw [clamp01_eq_self (by norm_num) (by norm_num)]
      · rw [if_neg hks] at hfa
        exact absurd hfa (by simp)
  · intro it0 hmem h1 h2 h3
    refine List.mem_filterMap.mpr ⟨RawEntry.dict it0, hmem, ?_⟩
    simp [fix_landmark_entry, h1, h2, h3]
  · intro e he
    obtain ⟨a, ha, hfa⟩ := List.mem_filterMap.mp he
    cases a with
    | nonDict => simp [fix_landmark_entry] at hfa
    | dict it0 =>
      simp only [fix_landmark_entry] at hfa
      by_cases hks : (it0.type.isSome && it0.direction.isSome
          && it0.distance.isSome) = true
      · rw [if_pos hks] at hfa
        injection hfa with hfa
        rw [← hfa]
        simp
      · rw [if_neg hks] at hfa
        exact absurd hfa (by simp)

/-- C5 witness: on a concrete raw map, an entry missing `distance` is
dropped and a complete entry missing `confidence` is kept at `0.5`. -/
theorem claim_landmark_repair_witness :
    landmarkRawC5.landmarks = some landmarkItemsC5 ∧
    ∃ out, (attempt_fix_validation_errors landmarkRawC5).landmarks = some out ∧
      landmark_repair_spec landmarkItemsC5 out :=
  ⟨rfl, claim_landmark_repair landmarkRawC5 landmarkItemsC5 rfl⟩

/-- C1: when the first extract call returns a raw result that fails schema
validation even after repair, `process_frame` immediately returns the
synthesized fallback (`scene_type = unknown`, `scene_confidence = 0.1`,
empty text and landmark lists, `processing_notes` describing the
validation failure) after exactly one extract call, with no backoff sleep
and no raised error. -/
theorem claim_schema_invalid_fallback (cfg : Config)
    (pyErrStr : RawMetadata → String) (rof : Bool)
    (extract : Nat → ExtractResult) (raw : RawMetadata)
    (hmax : 0 < cfg.max_retries) (hex : extract 0 = .ok raw)
    (hval : validate_and_parse raw = none) :
    process_frame cfg pyErrStr rof extract =
      { outcome := .ok (create_fallback_metadata
          ("Validation failed: " ++ pyErrStr raw)),
        attemptsMade := 1, totalDelay := 0 } ∧
    (create_fallback_metadata
        ("Validation failed: " ++ pyErrStr raw)).scene_type
      = SceneType.unknown ∧
    (create_fallback_metadata
        ("Validation failed: " ++ pyErrStr raw)).scene_confidence = 1/10 ∧
    (create_fallback_metadata
        ("Validation failed: " ++ pyErrStr raw)).text_detected = [] ∧
    (create_fallback_metadata
        ("Validation failed: " ++ pyErrStr raw)).landmarks = [] ∧
    (create_fallback_metadata
        ("Validation failed: " ++ pyErrStr raw)).processing_notes
      = some ("Extraction failed: " ++ ("Validation failed: " ++ pyErrStr raw)) := by
  refine ⟨?_, rfl, rfl, rfl, rfl, rfl⟩
  rw [process_frame_first_extract_ok cfg pyErrStr rof extract raw hmax hex, hval]

/-- C1 witness: a raw result with an invalid `scene_type` literal fails
validation even after repair; `process_frame` yields the fallback in one
attempt. -/
theorem claim_schema_invalid_fallback_witness :
    0 < defaultConfig.max_retries ∧
    validate_and_parse badSceneRaw = none ∧
    process_frame defaultConfig (fun _ => "bad scene literal") true
        (fun _ => .ok badSceneRaw) =
      { outcome := .ok (create_fallback_metadata
          ("Validation failed: " ++ "bad scene literal")),
        attemptsMade := 1, totalDelay := 0 } :=
  ⟨by decide, by with_unfolding_all decide,
   (claim_schema_invalid_fallback defaultConfig (fun _ => "bad scene literal")
      true (fun _ => .ok badSceneRaw) badSceneRaw (by decide) rfl
      (by with_unfolding_all decide)).1⟩

/-- C8: when the first extract call returns an already-valid raw result,
`process_frame` returns exactly the confidence-filtered parse of it, in
one attempt, with no sleep — the round trip through validation is
lossless. -/
theorem claim_valid_roundtrip (cfg : Config)
    (pyErrStr : RawMetadata → String) (rof : Bool)
    (extract : Nat → ExtractResult) (raw : RawMetadata) (m : IndoorMetadata)
    (hmax : 0 < cfg.max_retries) (hex : extract 0 = .ok raw)
    (hparse : parse_indoor_metadata raw = some m) :
    process_frame cfg pyErrStr rof extract =
      { outcome := .ok (apply_confidence_filtering cfg.confidence_threshold m),
        attemptsMade := 1, totalDelay := 0 } := by
  have hv : validate_and_parse raw = some m := by
    unfold validate_and_parse
    rw [hparse]
  rw [process_frame_first_extract_ok cfg pyErrStr rof extract raw hmax hex, hv]

/-- C8 witness: the hallway scenario — scenario values come back exactly,
with `lighting_quality = good` and `motion_blur_detected = false` filled
in as defaults, untouched by filtering at the default threshold. -/
theorem claim_valid_roundtrip_witness :
    0 < defaultConfig.max_retries ∧
    parse_indoor_metadata hallwayRaw = some hallwayMeta ∧
    hallwayMeta.lighting_quality = LightingQuality.good ∧
    hallwayMeta.motion_blur_detected = false ∧
    process_frame defaultConfig (fun _ => "E") true (fun _ => .ok hallwayRaw) =
      { outcome := .ok hallwayMeta, attemptsMade := 1, totalDelay := 0 } := by
  have h := claim_valid_roundtrip defaultConfig (fun _ => "E") true
      (fun _ => .ok hallwayRaw) hallwayRaw hallwayMeta (by decide) rfl
      (by with_unfolding_all decide)
  have hfilter : apply_confidence_filtering defaultConfig.confidence_threshold
      hallwayMeta = hallwayMeta := by with_unfolding_all decide
  refine ⟨by decide, by with_unfolding_all decide, rfl, rfl, ?_⟩
  rw [h, hfilter]

/-- C2 (code behaviour at the failing input): with `max_retries = 3` and
`retry_on_failure = True`, a vision client whose every call throws makes
`process_frame` perform exactly 3 extract calls with backoff sleeps of
`retry_delay * 1 + retry_delay * 2` — but the error that escapes is the
re-raised underlying transport exception of the third attempt (bare
`raise` at line 103), not the `ValueError` of line 106 that would carry
the attempt count: that statement is unreachable once the loop has
started. -/
theorem claim_retry_exhaustion_behavior :
    (process_frame defaultConfig (fun _ => "E") true
        (fun _ => .err "connection reset")
      = { outcome := .raised (.transport "connection reset"),
          attemptsMade := 3,
          totalDelay := defaultConfig.retry_delay * 1
            + defaultConfig.retry_delay * 2 }) ∧
    (∀ msgs : Nat → String,
      process_frame defaultConfig (fun _ => "E") true (fun i => .err (msgs i))
        = { outcome := .raised (.transport (msgs 2)),
            attemptsMade := 3,
            totalDelay := defaultConfig.retry_delay * 1
              + defaultConfig.retry_delay * 2 }) := by
  constructor
  · with_unfolding_all decide
  · intro msgs
    show process_frame_go defaultConfig (fun _ => "E") true
        (fun i => .err (msgs i)) 0 none 0 3 = _
    simp only [process_frame_go]
    norm_num [defaultConfig]

/-- C3: the batch result has exactly one entry per input frame, in input
order; entry `i` is frame `i`'s own `process_frame` value, with a raised
per-frame error converted to that frame's fallback — independent of every
other frame. -/
theorem claim_batch_shape (cfg : Config) (pyErrStr : RawMetadata → String)
    (extracts : List (Nat → ExtractResult)) (i : Nat) :
    (process_frame_batch cfg pyErrStr extracts).length = extracts.length ∧
    (process_frame_batch cfg pyErrStr extracts)[i]?
      = (extracts[i]?).map (fun ex =>
          frame_outcome_to_result (process_frame cfg pyErrStr true ex).outcome) := by
  constructor
  · unfold process_frame_batch
    simp
  · unfold process_frame_batch
    simp only [List.getElem?_map]
    cases hx : extracts[i]? with
    | none => rfl
    | some ex =>
      simp only [Option.map_some']
      cases (process_frame cfg pyErrStr true ex).outcome <;> rfl

/-- C6 counterexample: repair does not drop a text entry whose text is
whitespace-only — the entry (with its confidence clamped) is still present
in the repaired map, because the repair loop only checks that the `text`
key exists (line 169), not that its value is non-blank. -/
theorem counterexample_blank_text_kept_by_repair :
    isBlank "   " = true ∧
    (attempt_fix_validation_errors blankTextRaw).text_detected
      = some [RawEntry.dict { text := some "   ", confidence := some (9/10),
                              includes_arrow := none }] := by
  constructor
  · decide
  · with_unfolding_all decide

/-- C6 (amended): every `TextDetection` in any metadata value
`process_frame` returns has text that is neither empty nor
whitespace-only.  The guarantee comes from the pydantic validator
`text_not_empty`, not from repair: a blank-text entry survives repair,
makes validation fail, and turns the whole frame into the fallback (whose
text list is empty). -/
theorem claim_text_never_blank (cfg : Config)
    (pyErrStr : RawMetadata → String) (rof : Bool)
    (extract : Nat → ExtractResult) (m : IndoorMetadata)
    (h : (process_frame cfg pyErrStr rof extract).outcome = .ok m) :
    ∀ td ∈ m.text_detected, isBlank td.text = false := by
  intro td htd
  rcases process_frame_ok_cases cfg pyErrStr rof extract m h with
    ⟨raw, m0, hv, hm⟩ | ⟨s, hm⟩
  · subst hm
    have htd2 : td ∈ m0.text_detected := by
      have h2 := htd
      unfold apply_confidence_filtering at h2
      exact List.mem_of_mem_filter h2
    unfold validate_and_parse at hv
    cases hp : parse_indoor_metadata raw with
    | some m1 =>
      rw [hp] at hv
      injection hv with hv
      rw [hv] at hp
      exact parse_metadata_text_not_blank raw m0 hp td htd2
    | none =>
      rw [hp] at hv
      exact parse_metadata_text_not_blank _ m0 hv td htd2
  · subst hm
    simp [create_fallback_metadata] at htd

/-- C6 witness: a successful run returning the hallway metadata, whose
only text detection is non-blank. -/
theorem claim_text_never_blank_witness :
    (process_frame defaultConfig (fun _ => "E") true
        (fun _ => .ok hallwayRaw)).outcome = .ok hallwayMeta ∧
    ∀ td ∈ hallwayMeta.text_detected, isBlank td.text = false :=
  ⟨by with_unfolding_all decide,
   claim_text_never_blank defaultConfig (fun _ => "E") true
     (fun _ => .ok hallwayRaw) hallwayMeta (by with_unfolding_all decide)⟩

/-- C9: in the semaphore transition system modelling
`process_frame_batch`'s admission control, every reachable state has at
most `maxConcurrent` tasks inside the semaphore-guarded body — so at most
that many `extract` calls are in flight, whatever the batch size. -/
theorem claim_batch_concurrency_bound (cap n : Nat) (s : SemState)
    (h : SemReachable cap n s) : inFlight s ≤ cap := by
  have h2 := sem_invariant h
  omega

/-- C9 witness: a batch of 8 tasks behind a cap of 5, after one task has
acquired the semaphore. -/
theorem claim_batch_concurrency_bound_witness :
    SemReachable 5 8 ⟨(initSem 5 8).sem - 1,
        (initSem 5 8).tasks.set 0 TaskPhase.running⟩ ∧
    inFlight ⟨(initSem 5 8).sem - 1,
        (initSem 5 8).tasks.set 0 TaskPhase.running⟩ ≤ 5 := by
  have hstep : SemStep (initSem 5 8)
      ⟨(initSem 5 8).sem - 1, (initSem 5 8).tasks.set 0 TaskPhase.running⟩ :=
    SemStep.acquire (initSem 5 8) 0 (by decide) (by decide)
  have hr := Relation.ReflTransGen.single hstep
  exact ⟨hr, claim_batch_concurrency_bound 5 8 _ hr⟩
